import Mathlib

/-!
Shallow embedding of the quote-lifecycle core of the cashu-lsp repository
(src/src/lsp_server.rs, src/src/types.rs), together with a model of the
quote store (`src/src/lib.rs` declares `pub mod db;` but `db.rs` is not part
of the provided sources; it is modelled from spec section 4.2).

Machine integers (`u64`) are modelled as `Nat` with explicit `% 2^64` or
bound checks exactly where the Rust code uses checked or wrapping
arithmetic.  External collaborators (the cdk wallet, the ldk node) are
modelled as oracle arguments: the handler receives the outcome of each
external call as an input, mirroring the `Result` values the Rust code
matches on.
-/

namespace CashuLsp

/-- Size of the `u64` value space. -/
def uSize : Nat := 2 ^ 64

/-- Rust `u64::checked_mul`: `some` of the product when it fits in `u64`. -/
def checked_mul (a b : Nat) : Option Nat :=
  if a * b < uSize then some (a * b) else none

/-- Rust `u64::checked_add`: `some` of the sum when it fits in `u64`. -/
def checked_add (a b : Nat) : Option Nat :=
  if a + b < uSize then some (a + b) else none

/-- Embedding of `QuoteState` from src/src/types.rs (lines 133-140). -/
inductive QuoteState where
  | Unpaid
  | Paid
  | ChannelPending
  | ChannelOpen
  | ChannelExpired
deriving DecidableEq, Repr

/-- Embedding of `QuoteInfo` from src/src/types.rs (lines 110-122).  `Uuid`, `PublicKey`,
`SocketAddress` and `UserChannelId` are opaque identifiers to the lifecycle
logic; they are modelled as `Nat`. -/
structure QuoteInfo where
  id : Nat
  channel_size_sats : Nat
  push_amount_sats : Option Nat
  expected_payment_sats : Nat
  node_pubkey : Nat
  addr : Nat
  state : QuoteState
  channel_id : Option Nat
deriving DecidableEq, Repr

/-- Embedding of `CashuLspInfo` from src/src/lsp_server.rs (lines 53-60); mint URLs are
opaque and modelled as `Nat`. -/
structure CashuLspInfo where
  min_channel_size_sat : Nat
  max_channel_size_sat : Nat
  accepted_mints : List Nat
  min_fee : Nat
  fee_ppk : Nat
deriving DecidableEq, Repr

/-- Embedding of `ChannelQuoteRequest` from src/src/types.rs (lines 124-131). -/
structure ChannelQuoteRequest where
  channel_size_sats : Nat
  node_pubkey : Nat
  addr : Nat
  push_amount : Option Nat
deriving DecidableEq, Repr

/-- Embedding of `PaymentRequestPayload` as consumed by `post_receive_payment`:
`mint`, an optional `id` string, and the proofs (modelled by their face
values in sats).  The `id` field is `Option (Option Nat)`: the outer level
is presence of the field (`payload.id.ok_or_else` at lsp_server.rs:292),
the inner level is whether the string parses as a `Uuid`
(`Uuid::from_str` at lsp_server.rs:297). -/
structure PaymentRequestPayload where
  mint : Nat
  id : Option (Option Nat)
  proofs : List Nat
deriving DecidableEq, Repr

/-- Embedding of `LspError` from src/src/lsp_server.rs (lines 62-75). -/
inductive LspError where
  | InvalidUuid (s : String)
  | QuoteNotFound (id : Nat)
  | InvalidChannelSize (size min max : Nat)
  | UnsupportedMint (mint : Nat)
  | InvalidQuoteState (id : Nat) (state : QuoteState)
  | InsufficientPayment (expected received : Nat)
  | DatabaseError (msg : String)
  | ChannelOpenError (msg : String)
  | WalletError (msg : String)
  | ProofVerificationError (msg : String)
  | InternalError (msg : String)
deriving DecidableEq, Repr

/-- Outcome of a handler: a normal return (`ok`/`err`, the two sides of the
Rust `Result`), or an abort of the request via a `panic` (`.expect(..)` in
the Rust code), which produces no `Result` value at all. -/
inductive HResult (α : Type) where
  | ok (a : α)
  | err (e : LspError)
  | aborted (msg : String)
deriving DecidableEq, Repr

/-- Returns `true` exactly when the handler outcome is an `Err` returned to the
caller. -/
def HResult.isErr {α : Type} : HResult α → Bool
  | .err _ => true
  | _ => false

/-- Modelled from the spec: `src/src/lib.rs` declares `pub mod db;` but
`db.rs` is not among the provided sources.  Spec section 4.2 specifies the
quote store as a durable mapping from quote id to `Quote` record with
`put` (upsert, overwrites any record with the same id), `get` (point
lookup) and `set_state` (update state in place, return the updated
record).  The store is modelled as a list of records; the order is
unobservable through `get_quote`. -/
abbrev Db : Type := List QuoteInfo

/-- Modelled from the spec: quote-store point lookup (`get`). -/
def Db.get_quote (db : Db) (id : Nat) : Option QuoteInfo :=
  List.find? (fun q => q.id == id) db

/-- Modelled from the spec: quote-store upsert (`put`): the new record
replaces any record with the same id. -/
def Db.add_quote (db : Db) (q : QuoteInfo) : Db :=
  q :: List.filter (fun r => r.id != q.id) db

/-- Modelled from the spec: quote-store `set_state`: updates the state in
place and returns the updated record, or `none` when no record has the
given id. -/
def Db.update_quote_state (db : Db) (id : Nat) (s : QuoteState) :
    Option (QuoteInfo × Db) :=
  match db.get_quote id with
  | none => none
  | some q =>
      let q2 : QuoteInfo := { q with state := s }
      some (q2, db.add_quote q2)

/-- Embedding of `post_channel_quote` from src/src/lsp_server.rs (lines 144-228).
`payment_id` stands for the freshly generated `Uuid::new_v4()`;
`transport_ok` is the outcome of the external `Transport::builder` call
(lines 182-189).  The two `.expect("… overflow")` calls on the checked
arithmetic become `.aborted` outcomes.  The returned `Db` is the store
after the call; the `PaymentRequest` string in the `200` body is external
serialization and is not modelled. -/
def post_channel_quote (info : CashuLspInfo) (db : Db) (payment_id : Nat)
    (transport_ok : Bool) (payload : ChannelQuoteRequest) :
    HResult Unit × Db :=
  if payload.channel_size_sats > info.max_channel_size_sat then
    (.err (.InvalidChannelSize payload.channel_size_sats
      info.min_channel_size_sat info.max_channel_size_sat), db)
  else if payload.channel_size_sats < info.min_channel_size_sat then
    (.err (.InvalidChannelSize payload.channel_size_sats
      info.min_channel_size_sat info.max_channel_size_sat), db)
  else
    match checked_mul (payload.channel_size_sats / 1000) info.fee_ppk with
    | none => (.aborted "Amount overflow", db)
    | some rawFee =>
      let fee := if rawFee < info.min_fee then info.min_fee else rawFee
      if transport_ok = false then
        (.err (.InternalError "Failed to build transport"), db)
      else
        match checked_add payload.channel_size_sats fee with
        | none => (.aborted "amount overflow", db)
        | some s1 =>
          match checked_add s1 (payload.push_amount.getD 0) with
          | none => (.aborted "amount overflow", db)
          | some payment_required =>
            let quote : QuoteInfo :=
              { id := payment_id
                channel_size_sats := payload.channel_size_sats
                push_amount_sats := payload.push_amount
                expected_payment_sats := payment_required
                node_pubkey := payload.node_pubkey
                addr := payload.addr
                state := QuoteState.Unpaid
                channel_id := none }
            (.ok (), db.add_quote quote)

/-- Embedding of `Amount::try_sum` over the proof face values: checked summation in
`u64`, failing when the total does not fit. -/
def try_sum (proofs : List Nat) : Option Nat :=
  if proofs.sum < uSize then some proofs.sum else none

/-- The arguments `post_receive_payment` passes to
`open_announced_channel` (src/src/lsp_server.rs lines 380-386). -/
structure OpenChannelArgs where
  node_pubkey : Nat
  addr : Nat
  channel_amount_sats : Nat
  push_to_counterparty_msat : Option Nat
deriving DecidableEq, Repr

/-- Embedding of `post_receive_payment` from src/src/lsp_server.rs (lines 280-413).
External collaborators are oracle inputs: `wallet_exists` is whether
`get_wallet` finds a wallet for the mint (lines 337-346), `redeem_result`
is the outcome of `wallet.receive_proofs` (lines 349-355), `open_result`
is the outcome of `open_announced_channel` returning the `UserChannelId`
(lines 380-386).  The sats-to-millisats conversion `a * 1_000` on the push
amount is an unchecked `u64` multiplication, modelled with release-build
(wrapping) semantics as `% uSize`.  The result carries the final store and
the arguments of the channel-open call when one was made. -/
def post_receive_payment (info : CashuLspInfo) (db : Db)
    (payload : PaymentRequestPayload) (wallet_exists : Bool)
    (redeem_result : Except String Nat) (open_result : Except String Nat) :
    HResult Unit × Db × Option OpenChannelArgs :=
  if info.accepted_mints.contains payload.mint = false then
    (.err (.UnsupportedMint payload.mint), db, none)
  else
    match payload.id with
    | none => (.err (.InvalidUuid "missing"), db, none)
    | some parsed =>
      match parsed with
      | none => (.err (.InvalidUuid "unparseable"), db, none)
      | some id =>
        match db.get_quote id with
        | none => (.err (.QuoteNotFound id), db, none)
        | some quote =>
          if quote.state ≠ QuoteState.Unpaid then
            (.err (.InvalidQuoteState id quote.state), db, none)
          else
            match try_sum payload.proofs with
            | none =>
              (.err (.InternalError "Failed to sum proof amounts"), db, none)
            | some received =>
              if quote.expected_payment_sats < received then
                (.err (.InsufficientPayment quote.expected_payment_sats
                  received), db, none)
              else if wallet_exists = false then
                (.err (.WalletError "Wallet not created"), db, none)
              else
                match redeem_result with
                | .error e => (.err (.ProofVerificationError e), db, none)
                | .ok _amount =>
                  match db.update_quote_state id QuoteState.ChannelPending with
                  | none => (.err (.DatabaseError "not found"), db, none)
                  | some (q2, db1) =>
                    let args : OpenChannelArgs :=
                      { node_pubkey := q2.node_pubkey
                        addr := q2.addr
                        channel_amount_sats := q2.channel_size_sats
                        push_to_counterparty_msat :=
                          q2.push_amount_sats.map (fun a => a * 1000 % uSize) }
                    match open_result with
                    | .ok channel_id =>
                      let q3 : QuoteInfo :=
                        { q2 with channel_id := some channel_id,
                                  state := QuoteState.ChannelOpen }
                      (.ok (), db1.add_quote q3, some args)
                    | .error _ =>
                      let q3 : QuoteInfo := { q2 with state := QuoteState.Paid }
                      (.ok (), db1.add_quote q3, some args)

/-- A live channel as reported by `node.inner.list_channels()`:
the internal correlation handle (`user_channel_id`) and the
externally-visible `channel_id`, both opaque and modelled as `Nat`. -/
structure ChannelDetails where
  user_channel_id : Nat
  channel_id : Nat
deriving DecidableEq, Repr

/-- Embedding of `QuoteStateResponse` from src/src/lsp_server.rs (lines 230-235). -/
structure QuoteStateResponse where
  id : Nat
  state : QuoteState
  channel_id : Option Nat
deriving DecidableEq, Repr

/-- Embedding of `get_quote_state` from src/src/lsp_server.rs (lines 237-278).
`idStr` is the parse result of the path parameter (`none` for an invalid
`Uuid`); `channels` is the live channel list of the node.  The handler never
mutates the store. -/
def get_quote_state (db : Db) (idStr : Option Nat)
    (channels : List ChannelDetails) : HResult QuoteStateResponse :=
  match idStr with
  | none => .err (.InvalidUuid "unparseable")
  | some id =>
    match db.get_quote id with
    | none => .err (.QuoteNotFound id)
    | some quote =>
      let channel_id : Option Nat :=
        match quote.channel_id with
        | none => none
        | some ucid =>
          (List.head? (channels.filter (fun c => c.user_channel_id == ucid))).map
            (fun c => c.channel_id)
      .ok { id := quote.id, state := quote.state, channel_id := channel_id }

/-- Single allowed edge of the quote lifecycle graph (spec section 4.5):
`Unpaid → ChannelPending` on validated payment, `ChannelPending →
ChannelOpen` on channel-open success, `ChannelPending → Paid` on
channel-open failure. -/
inductive StateStep : QuoteState → QuoteState → Prop where
  | pay : StateStep QuoteState.Unpaid QuoteState.ChannelPending
  | opened : StateStep QuoteState.ChannelPending QuoteState.ChannelOpen
  | openFailed : StateStep QuoteState.ChannelPending QuoteState.Paid

/-- A store-mutating operation of this core: the two POST handlers with
their oracle inputs.  `get_lsp_info` and `get_quote_state` never touch the
store and are pure reads. -/
inductive Op where
  | channelQuote (payment_id : Nat) (transport_ok : Bool)
      (payload : ChannelQuoteRequest)
  | payment (payload : PaymentRequestPayload) (wallet_exists : Bool)
      (redeem_result : Except String Nat) (open_result : Except String Nat)

/-- The store after running one operation. -/
def applyOp (info : CashuLspInfo) (db : Db) : Op → Db
  | Op.channelQuote pid tok payload =>
      (post_channel_quote info db pid tok payload).2
  | Op.payment payload w r o => (post_receive_payment info db payload w r o).2.1

/-- Side condition of an operation: a quote creation uses a fresh
`Uuid::new_v4()` identifier, i.e. one not already present in the store. -/
def opOK (db : Db) : Op → Prop
  | Op.channelQuote pid _ _ => db.get_quote pid = none
  | Op.payment _ _ _ _ => True

/-- Every operation of the sequence satisfies its side condition in the
store state it actually runs against. -/
def SeqOK (info : CashuLspInfo) : Db → List Op → Prop
  | _, [] => True
  | db, op :: rest => opOK db op ∧ SeqOK info (applyOp info db op) rest

/-- The store after running a whole sequence of operations. -/
def applyOps (info : CashuLspInfo) : Db → List Op → Db
  | db, [] => db
  | db, op :: rest => applyOps info (applyOp info db op) rest

/-- Lifted lifecycle relation on optional store entries: an absent entry
stays absent or appears as a quote whose state is reachable from `Unpaid`;
the state of a present entry advances along `StateStep`; an entry never
disappears. -/
def optStep (a b : Option QuoteInfo) : Prop :=
  match a, b with
  | none, none => True
  | none, some q' => Relation.ReflTransGen StateStep QuoteState.Unpaid q'.state
  | some q, some q' => Relation.ReflTransGen StateStep q.state q'.state
  | some _, none => False

/-- Concrete LSP configuration used by the witnesses: sizes 10 to
1,000,000 sats, one accepted mint, no minimum fee, 1 sat per 1000. -/
def infoW : CashuLspInfo :=
  { min_channel_size_sat := 10, max_channel_size_sat := 1000000,
    accepted_mints := [1], min_fee := 0, fee_ppk := 1 }

/-- Concrete stored quote used by the witnesses, parameterised by state,
channel handle and push amount; it expects a 100-sat payment. -/
def quoteW (st : QuoteState) (cid : Option Nat) (push : Option Nat) :
    QuoteInfo :=
  { id := 7, channel_size_sats := 90, push_amount_sats := push,
    expected_payment_sats := 100, node_pubkey := 2, addr := 3,
    state := st, channel_id := cid }

/-- Concrete `/payment` body used by the witnesses. -/
def payW (proofs : List Nat) : PaymentRequestPayload :=
  { mint := 1, id := some (some 7), proofs := proofs }

/-! Store lemmas. -/

theorem get_quote_id {db : Db} {i : Nat} {q : QuoteInfo}
    (h : db.get_quote i = some q) : q.id = i := by
  have h2 := List.find?_some h
  simpa using h2

theorem find_filter_ne (db : List QuoteInfo) (qid i : Nat) (h : i ≠ qid) :
    List.find? (fun r => r.id == i) (List.filter (fun r => r.id != qid) db) =
      List.find? (fun r => r.id == i) db := by
  have hqi : (qid == i) = false := by
    simp
    exact fun he => h he.symm
  induction db with
  | nil => rfl
  | cons r rest ih =>
    by_cases hr : r.id = qid
    · simp [List.filter_cons, List.find?_cons, hr, hqi, ih]
    · by_cases hri : r.id = i
      · simp [List.filter_cons, List.find?_cons, hr, hri, h, ih]
      · simp [List.filter_cons, List.find?_cons, hr, hri, h, ih]

theorem get_quote_add_quote_self (db : Db) (q : QuoteInfo) :
    (db.add_quote q).get_quote q.id = some q := by
  simp [Db.add_quote, Db.get_quote, List.find?_cons]

theorem get_quote_add_quote_ne (db : Db) (q : QuoteInfo) (i : Nat)
    (h : i ≠ q.id) :
    (db.add_quote q).get_quote i = db.get_quote i := by
  have hq : (q.id == i) = false := by
    simp
    exact fun he => h he.symm
  simp [Db.add_quote, Db.get_quote, List.find?_cons, hq,
    find_filter_ne db q.id i h]

theorem update_quote_state_eq {db : Db} {i : Nat} {q : QuoteInfo}
    (h : db.get_quote i = some q) (s : QuoteState) :
    db.update_quote_state i s =
      some ({ q with state := s }, db.add_quote { q with state := s }) := by
  simp [Db.update_quote_state, h]

/-! Lifecycle-monotonicity machinery. -/

theorem optStep_refl (a : Option QuoteInfo) : optStep a a := by
  cases a with
  | none => trivial
  | some q => exact Relation.ReflTransGen.refl

theorem optStep_trans {a b c : Option QuoteInfo}
    (h1 : optStep a b) (h2 : optStep b c) : optStep a c := by
  cases a <;> cases b <;> cases c <;> simp [optStep] at * <;>
    first
    | exact h1.trans h2
    | trivial

theorem add_add_opt (db : Db) (q : QuoteInfo) (st2 : QuoteState)
    (cid : Option Nat) (hget : db.get_quote q.id = some q)
    (hst : q.state = QuoteState.Unpaid)
    (hstep : StateStep QuoteState.ChannelPending st2) (i : Nat) :
    optStep (db.get_quote i)
      (((db.add_quote { q with state := QuoteState.ChannelPending }).add_quote
          { q with state := st2, channel_id := cid }).get_quote i) := by
  by_cases hi : i = q.id
  · subst hi
    rw [hget]
    have hself := get_quote_add_quote_self
      (db.add_quote { q with state := QuoteState.ChannelPending })
      { q with state := st2, channel_id := cid }
    rw [show ({ q with state := st2, channel_id := cid } : QuoteInfo).id = q.id
      from rfl] at hself
    rw [hself]
    show Relation.ReflTransGen StateStep q.state st2
    rw [hst]
    exact (Relation.ReflTransGen.refl.tail StateStep.pay).tail hstep
  · have hi1 : i ≠ ({ q with state := st2, channel_id := cid } : QuoteInfo).id := hi
    have hi2 : i ≠ ({ q with state := QuoteState.ChannelPending } : QuoteInfo).id := hi
    rw [get_quote_add_quote_ne _ _ _ hi1, get_quote_add_quote_ne _ _ _ hi2]
    exact optStep_refl _

theorem payment_op_opt (info : CashuLspInfo) (db : Db)
    (payload : PaymentRequestPayload) (w : Bool) (r o : Except String Nat)
    (i : Nat) :
    optStep (db.get_quote i)
      (((post_receive_payment info db payload w r o).2.1).get_quote i) := by
  unfold post_receive_payment
  repeat' split
  all_goals try exact optStep_refl _
  · rename_i hmint x1 x2 uid hid x3 q hq hstate x4 recv hsum hlt hw r2 amt x5 q2
      db1 hupd o2 cid
    rw [update_quote_state_eq hq QuoteState.ChannelPending] at hupd
    simp only [Option.some.injEq, Prod.mk.injEq] at hupd
    obtain ⟨h1, h2⟩ := hupd
    subst h1
    subst h2
    have hqid : q.id = uid := get_quote_id hq
    subst hqid
    exact add_add_opt db q QuoteState.ChannelOpen (some cid) hq
      (not_ne_iff.mp hstate) StateStep.opened i
  · rename_i hmint x1 x2 uid hid x3 q hq hstate x4 recv hsum hlt hw r2 amt x5 q2
      db1 hupd o2 e
    rw [update_quote_state_eq hq QuoteState.ChannelPending] at hupd
    simp only [Option.some.injEq, Prod.mk.injEq] at hupd
    obtain ⟨h1, h2⟩ := hupd
    subst h1
    subst h2
    have hqid : q.id = uid := get_quote_id hq
    subst hqid
    exact add_add_opt db q QuoteState.Paid q.channel_id hq
      (not_ne_iff.mp hstate) StateStep.openFailed i

theorem add_fresh_opt (db : Db) (q : QuoteInfo)
    (hfresh : db.get_quote q.id = none)
    (hst : q.state = QuoteState.Unpaid) (i : Nat) :
    optStep (db.get_quote i) ((db.add_quote q).get_quote i) := by
  by_cases hi : i = q.id
  · subst hi
    rw [hfresh, get_quote_add_quote_self]
    show Relation.ReflTransGen StateStep QuoteState.Unpaid q.state
    rw [hst]
  · rw [get_quote_add_quote_ne _ _ _ hi]
    exact optStep_refl _

theorem channel_quote_op_opt (info : CashuLspInfo) (db : Db) (pid : Nat)
    (tok : Bool) (payload : ChannelQuoteRequest) (i : Nat)
    (hfresh : db.get_quote pid = none) :
    optStep (db.get_quote i)
      (((post_channel_quote info db pid tok payload).2).get_quote i) := by
  unfold post_channel_quote
  repeat' split
  all_goals dsimp only
  all_goals repeat' split
  all_goals first
    | exact optStep_refl _
    | exact add_fresh_opt db _ hfresh rfl i

theorem op_opt (info : CashuLspInfo) (db : Db) (op : Op) (hok : opOK db op)
    (i : Nat) :
    optStep (db.get_quote i) ((applyOp info db op).get_quote i) := by
  cases op with
  | channelQuote pid tok payload =>
      exact channel_quote_op_opt info db pid tok payload i hok
  | payment payload w r o => exact payment_op_opt info db payload w r o i

theorem seq_opt (info : CashuLspInfo) (ops : List Op) : ∀ (db : Db),
    SeqOK info db ops → ∀ i : Nat,
    optStep (db.get_quote i) ((applyOps info db ops).get_quote i) := by
  induction ops with
  | nil =>
      intro db _ i
      exact optStep_refl _
  | cons op rest ih =>
      intro db hseq i
      exact optStep_trans (op_opt info db op hseq.1 i) (ih _ hseq.2 i)

theorem step_target_ne_unpaid {a b : QuoteState} (h : StateStep a b) :
    b ≠ QuoteState.Unpaid := by
  cases h <;> simp

theorem rtg_to_unpaid {s : QuoteState}
    (h : Relation.ReflTransGen StateStep s QuoteState.Unpaid) :
    s = QuoteState.Unpaid := by
  rcases h.cases_tail with he | ⟨c, _, hstep⟩
  · exact he.symm
  · exact absurd rfl (step_target_ne_unpaid hstep)

theorem rtg_to_expired {s : QuoteState}
    (h : Relation.ReflTransGen StateStep s QuoteState.ChannelExpired) :
    s = QuoteState.ChannelExpired := by
  rcases h.cases_tail with he | ⟨c, _, hstep⟩
  · exact he.symm
  · cases hstep


/-! Path lemmas for `post_receive_payment`. -/

theorem payment_success_open_ok
    (info : CashuLspInfo) (db : Db) (payload : PaymentRequestPayload)
    (uid recv amt cid : Nat) (q : QuoteInfo)
    (hm : info.accepted_mints.contains payload.mint = true)
    (hid : payload.id = some (some uid))
    (hq : db.get_quote uid = some q)
    (hst : q.state = QuoteState.Unpaid)
    (hsum : try_sum payload.proofs = some recv)
    (hlt : ¬ q.expected_payment_sats < recv) :
    post_receive_payment info db payload true (Except.ok amt) (Except.ok cid) =
      (HResult.ok (),
        (db.add_quote { q with state := QuoteState.ChannelPending }).add_quote
          { q with state := QuoteState.ChannelOpen, channel_id := some cid },
        some { node_pubkey := q.node_pubkey, addr := q.addr,
               channel_amount_sats := q.channel_size_sats,
               push_to_counterparty_msat :=
                 q.push_amount_sats.map (fun a => a * 1000 % uSize) }) := by
  unfold post_receive_payment
  simp only [hm, hid, hq, hst, hsum, hlt, update_quote_state_eq hq]
  simp

theorem payment_success_open_err
    (info : CashuLspInfo) (db : Db) (payload : PaymentRequestPayload)
    (uid recv amt : Nat) (e : String) (q : QuoteInfo)
    (hm : info.accepted_mints.contains payload.mint = true)
    (hid : payload.id = some (some uid))
    (hq : db.get_quote uid = some q)
    (hst : q.state = QuoteState.Unpaid)
    (hsum : try_sum payload.proofs = some recv)
    (hlt : ¬ q.expected_payment_sats < recv) :
    post_receive_payment info db payload true (Except.ok amt)
        (Except.error e) =
      (HResult.ok (),
        (db.add_quote { q with state := QuoteState.ChannelPending }).add_quote
          { q with state := QuoteState.Paid },
        some { node_pubkey := q.node_pubkey, addr := q.addr,
               channel_amount_sats := q.channel_size_sats,
               push_to_counterparty_msat :=
                 q.push_amount_sats.map (fun a => a * 1000 % uSize) }) := by
  unfold post_receive_payment
  simp only [hm, hid, hq, hst, hsum, hlt, update_quote_state_eq hq]
  simp

theorem payment_invalid_state
    (info : CashuLspInfo) (db : Db) (payload : PaymentRequestPayload)
    (uid : Nat) (q : QuoteInfo) (w : Bool) (r o : Except String Nat)
    (hm : info.accepted_mints.contains payload.mint = true)
    (hid : payload.id = some (some uid))
    (hq : db.get_quote uid = some q)
    (hst : q.state ≠ QuoteState.Unpaid) :
    post_receive_payment info db payload w r o =
      (HResult.err (LspError.InvalidQuoteState uid q.state), db, none) := by
  unfold post_receive_payment
  simp only [hm, hid, hq]
  simp [hst]

theorem payment_redeem_fails
    (info : CashuLspInfo) (db : Db) (payload : PaymentRequestPayload)
    (uid recv : Nat) (e : String) (q : QuoteInfo) (o : Except String Nat)
    (hm : info.accepted_mints.contains payload.mint = true)
    (hid : payload.id = some (some uid))
    (hq : db.get_quote uid = some q)
    (hst : q.state = QuoteState.Unpaid)
    (hsum : try_sum payload.proofs = some recv)
    (hlt : ¬ q.expected_payment_sats < recv) :
    post_receive_payment info db payload true (Except.error e) o =
      (HResult.err (LspError.ProofVerificationError e), db, none) := by
  unfold post_receive_payment
  simp only [hm, hid, hq, hst, hsum, hlt]
  simp

/-! Path lemmas for `post_channel_quote`. -/

theorem channel_quote_out_of_range
    (info : CashuLspInfo) (db : Db) (pid : Nat) (tok : Bool)
    (payload : ChannelQuoteRequest)
    (h : payload.channel_size_sats < info.min_channel_size_sat ∨
      payload.channel_size_sats > info.max_channel_size_sat) :
    post_channel_quote info db pid tok payload =
      (HResult.err (LspError.InvalidChannelSize payload.channel_size_sats
        info.min_channel_size_sat info.max_channel_size_sat), db) := by
  unfold post_channel_quote
  rcases h with h | h
  · by_cases h2 : payload.channel_size_sats > info.max_channel_size_sat
    · simp [h2]
    · simp [h, h2]
  · simp [h]

theorem channel_quote_in_range_not_size_err
    (info : CashuLspInfo) (db : Db) (pid : Nat) (tok : Bool)
    (payload : ChannelQuoteRequest)
    (hmin : info.min_channel_size_sat ≤ payload.channel_size_sats)
    (hmax : payload.channel_size_sats ≤ info.max_channel_size_sat) :
    ∀ s mn mx, (post_channel_quote info db pid tok payload).1 ≠
      HResult.err (LspError.InvalidChannelSize s mn mx) := by
  intro s mn mx
  unfold post_channel_quote
  have h1 : ¬ payload.channel_size_sats > info.max_channel_size_sat :=
    not_lt.mpr hmax
  have h2 : ¬ payload.channel_size_sats < info.min_channel_size_sat :=
    not_lt.mpr hmin
  simp only [h1, h2, if_false]
  repeat' split
  all_goals simp

theorem channel_quote_success
    (info : CashuLspInfo) (db : Db) (pid : Nat)
    (payload : ChannelQuoteRequest)
    (hmin : info.min_channel_size_sat ≤ payload.channel_size_sats)
    (hmax : payload.channel_size_sats ≤ info.max_channel_size_sat)
    (hmul : payload.channel_size_sats / 1000 * info.fee_ppk < uSize)
    (hsum : payload.channel_size_sats +
        max (payload.channel_size_sats / 1000 * info.fee_ppk) info.min_fee +
        (payload.push_amount.getD 0) < uSize) :
    post_channel_quote info db pid true payload =
      (HResult.ok (), db.add_quote
        { id := pid
          channel_size_sats := payload.channel_size_sats
          push_amount_sats := payload.push_amount
          expected_payment_sats := payload.channel_size_sats +
            max (payload.channel_size_sats / 1000 * info.fee_ppk)
              info.min_fee + (payload.push_amount.getD 0)
          node_pubkey := payload.node_pubkey
          addr := payload.addr
          state := QuoteState.Unpaid
          channel_id := none }) := by
  unfold post_channel_quote
  have h1 : ¬ payload.channel_size_sats > info.max_channel_size_sat :=
    not_lt.mpr hmax
  have h2 : ¬ payload.channel_size_sats < info.min_channel_size_sat :=
    not_lt.mpr hmin
  have hfee : (if payload.channel_size_sats / 1000 * info.fee_ppk <
      info.min_fee then info.min_fee
      else payload.channel_size_sats / 1000 * info.fee_ppk) =
      max (payload.channel_size_sats / 1000 * info.fee_ppk) info.min_fee := by
    rcases Nat.lt_or_ge (payload.channel_size_sats / 1000 * info.fee_ppk)
      info.min_fee with h | h
    · simp [h, Nat.max_eq_right (Nat.le_of_lt h)]
    · simp [Nat.not_lt.mpr h, Nat.max_eq_left h]
  have hadd1 : payload.channel_size_sats +
      max (payload.channel_size_sats / 1000 * info.fee_ppk) info.min_fee <
      uSize := by omega
  simp only [h1, h2, if_false, checked_mul, checked_add, if_pos hmul]
  rw [hfee]
  simp only [if_pos hadd1]
  simp only [if_pos hsum]
  simp

theorem fee_ite_eq_max (raw mf : Nat) :
    (if raw < mf then mf else raw) = max raw mf := by
  rcases Nat.lt_or_ge raw mf with h | h
  · simp [h, Nat.max_eq_right (Nat.le_of_lt h)]
  · simp [Nat.not_lt.mpr h, Nat.max_eq_left h]

theorem channel_quote_overflow
    (info : CashuLspInfo) (db : Db) (pid : Nat)
    (payload : ChannelQuoteRequest)
    (hmin : info.min_channel_size_sat ≤ payload.channel_size_sats)
    (hmax : payload.channel_size_sats ≤ info.max_channel_size_sat)
    (hovf : uSize ≤ payload.channel_size_sats / 1000 * info.fee_ppk ∨
      uSize ≤ payload.channel_size_sats +
        max (payload.channel_size_sats / 1000 * info.fee_ppk) info.min_fee +
        (payload.push_amount.getD 0)) :
    ∃ m : String, post_channel_quote info db pid true payload =
      (HResult.aborted m, db) := by
  unfold post_channel_quote
  have h1 : ¬ payload.channel_size_sats > info.max_channel_size_sat :=
    not_lt.mpr hmax
  have h2 : ¬ payload.channel_size_sats < info.min_channel_size_sat :=
    not_lt.mpr hmin
  by_cases hmul : payload.channel_size_sats / 1000 * info.fee_ppk < uSize
  · have hsum2 : uSize ≤ payload.channel_size_sats +
        max (payload.channel_size_sats / 1000 * info.fee_ppk) info.min_fee +
        (payload.push_amount.getD 0) := by
      rcases hovf with h | h
      · omega
      · exact h
    simp only [h1, h2, if_false, checked_mul, checked_add, if_pos hmul]
    rw [fee_ite_eq_max]
    by_cases hadd1 : payload.channel_size_sats +
        max (payload.channel_size_sats / 1000 * info.fee_ppk) info.min_fee <
        uSize
    · simp only [if_pos hadd1]
      have hadd2 : ¬ (payload.channel_size_sats +
          max (payload.channel_size_sats / 1000 * info.fee_ppk) info.min_fee +
          payload.push_amount.getD 0 < uSize) := not_lt.mpr hsum2
      simp only [if_neg hadd2]
      exact ⟨"amount overflow", rfl⟩
    · simp only [if_neg hadd1]
      exact ⟨"amount overflow", rfl⟩
  · simp only [h1, h2, if_false, checked_mul, if_neg hmul]
    exact ⟨"Amount overflow", rfl⟩

/-! Witness fixtures and claim theorems. -/

/-- Claim C1: the spec requires a `/payment` whose proofs sum to at least
`expected_payment_sats` to be accepted and one summing to strictly less to
be rejected with `InsufficientPayment` leaving the quote `Unpaid`.  The
comparison at src/src/lsp_server.rs:324 is flipped: against a quote
expecting 100 sats, a submission of 50 sats is accepted (the handler
returns `Ok` and drives the quote to `ChannelOpen`), while a submission of
150 sats is rejected as `InsufficientPayment{expected:=100, received:=150}`
— contradicting the very name and log message of the error. -/
theorem c1_flipped_amount_check_eval :
    (post_receive_payment infoW [quoteW QuoteState.Unpaid none none]
        (payW [50]) true (Except.ok 50) (Except.ok 99)).1 = HResult.ok () ∧
    ((post_receive_payment infoW [quoteW QuoteState.Unpaid none none]
        (payW [50]) true (Except.ok 50) (Except.ok 99)).2.1).get_quote 7 =
      some (quoteW QuoteState.ChannelOpen (some 99) none) ∧
    (post_receive_payment infoW [quoteW QuoteState.Unpaid none none]
        (payW [150]) true (Except.ok 150) (Except.ok 99)).1 =
      HResult.err (LspError.InsufficientPayment 100 150) := by
  refine ⟨rfl, ?_, rfl⟩
  decide

/-- Claim C4: a `/payment` submission against an existing quote whose state
is not `Unpaid` fails with `InvalidQuoteState` carrying the current state,
and the store is left entirely unchanged (no channel-open call is made
either). -/
theorem c4_invalid_state_rejected
    (info : CashuLspInfo) (db : Db) (payload : PaymentRequestPayload)
    (uid : Nat) (q : QuoteInfo) (w : Bool) (r o : Except String Nat)
    (hm : info.accepted_mints.contains payload.mint = true)
    (hid : payload.id = some (some uid))
    (hq : db.get_quote uid = some q)
    (hst : q.state ≠ QuoteState.Unpaid) :
    post_receive_payment info db payload w r o =
      (HResult.err (LspError.InvalidQuoteState uid q.state), db, none) :=
  payment_invalid_state info db payload uid q w r o hm hid hq hst

/-- Witness for C4: a second submission against a quote already in
`ChannelPending` is rejected with the current state and the store is
untouched. -/
theorem c4_invalid_state_rejected_witness :
    post_receive_payment infoW [quoteW QuoteState.ChannelPending none none]
        (payW [100]) true (Except.ok 100) (Except.ok 99) =
      (HResult.err (LspError.InvalidQuoteState 7 QuoteState.ChannelPending),
        [quoteW QuoteState.ChannelPending none none], none) :=
  c4_invalid_state_rejected infoW [quoteW QuoteState.ChannelPending none none]
    (payW [100]) 7 (quoteW QuoteState.ChannelPending none none)
    true (Except.ok 100) (Except.ok 99) rfl rfl rfl (by decide)

/-- Claim C3: when proof redemption fails, the handler returns
`ProofVerificationError`, the store is completely unchanged, and the quote
is still `Unpaid`, so the client may retry. -/
theorem c3_redeem_failure_no_mutation
    (info : CashuLspInfo) (db : Db) (payload : PaymentRequestPayload)
    (uid recv : Nat) (e : String) (q : QuoteInfo) (o : Except String Nat)
    (hm : info.accepted_mints.contains payload.mint = true)
    (hid : payload.id = some (some uid))
    (hq : db.get_quote uid = some q)
    (hst : q.state = QuoteState.Unpaid)
    (hsum : try_sum payload.proofs = some recv)
    (hlt : ¬ q.expected_payment_sats < recv) :
    post_receive_payment info db payload true (Except.error e) o =
      (HResult.err (LspError.ProofVerificationError e), db, none) ∧
    ∃ q', db.get_quote uid = some q' ∧ q'.state = QuoteState.Unpaid :=
  ⟨payment_redeem_fails info db payload uid recv e q o hm hid hq hst hsum hlt,
    q, hq, hst⟩

/-- Witness for C3 at a concrete input. -/
theorem c3_redeem_failure_no_mutation_witness :
    post_receive_payment infoW [quoteW QuoteState.Unpaid none none]
        (payW [100]) true (Except.error "spent") (Except.ok 99) =
      (HResult.err (LspError.ProofVerificationError "spent"),
        [quoteW QuoteState.Unpaid none none], none) ∧
    ∃ q', Db.get_quote [quoteW QuoteState.Unpaid none none] 7 = some q' ∧
      q'.state = QuoteState.Unpaid :=
  c3_redeem_failure_no_mutation infoW [quoteW QuoteState.Unpaid none none]
    (payW [100]) 7 100 "spent" (quoteW QuoteState.Unpaid none none)
    (Except.ok 99) rfl rfl rfl rfl (by decide) (by decide)


/-- Claim C2: when a validated and redeemed payment reaches the external
channel-open call and that call fails, the handler still returns `Ok` to
the payment submitter (the failure is not surfaced as an error), and the
stored quote ends in state `Paid` — not `ChannelPending` — with
`channel_id = none`. -/
theorem c2_open_failure_absorbed_as_paid
    (info : CashuLspInfo) (db : Db) (payload : PaymentRequestPayload)
    (uid recv amt : Nat) (e : String) (q : QuoteInfo)
    (hm : info.accepted_mints.contains payload.mint = true)
    (hid : payload.id = some (some uid))
    (hq : db.get_quote uid = some q)
    (hst : q.state = QuoteState.Unpaid)
    (hcid : q.channel_id = none)
    (hsum : try_sum payload.proofs = some recv)
    (hlt : ¬ q.expected_payment_sats < recv) :
    (post_receive_payment info db payload true (Except.ok amt)
      (Except.error e)).1 = HResult.ok () ∧
    ∃ q', ((post_receive_payment info db payload true (Except.ok amt)
        (Except.error e)).2.1).get_quote uid = some q' ∧
      q'.state = QuoteState.Paid ∧ q'.channel_id = none := by
  have hqid : q.id = uid := get_quote_id hq
  subst hqid
  have hrun := payment_success_open_err info db payload q.id recv amt e q
    hm hid hq hst hsum hlt
  rw [hrun]
  refine ⟨rfl, { q with state := QuoteState.Paid }, ?_, rfl, hcid⟩
  exact get_quote_add_quote_self
    (db.add_quote { q with state := QuoteState.ChannelPending })
    { q with state := QuoteState.Paid }

/-- Witness for C2: a fully valid 100-sat payment against the concrete
quote, with a channel opener that fails, yields `Ok` and a `Paid` quote
with no channel handle. -/
theorem c2_open_failure_absorbed_as_paid_witness :
    (post_receive_payment infoW [quoteW QuoteState.Unpaid none none]
      (payW [100]) true (Except.ok 100) (Except.error "no peer")).1 =
      HResult.ok () ∧
    ∃ q', ((post_receive_payment infoW [quoteW QuoteState.Unpaid none none]
        (payW [100]) true (Except.ok 100) (Except.error "no peer")).2.1).get_quote
        7 = some q' ∧
      q'.state = QuoteState.Paid ∧ q'.channel_id = none :=
  c2_open_failure_absorbed_as_paid infoW [quoteW QuoteState.Unpaid none none]
    (payW [100]) 7 100 100 "no peer" (quoteW QuoteState.Unpaid none none)
    rfl rfl rfl rfl rfl (by decide) (by decide)

/-- Claim C5: for an in-range request (and arithmetic within `u64`), the
fee is `max(floor(channel_size_sats / 1000) * fee_ppk, min_fee)` and the
persisted quote field `expected_payment_sats` is `channel_size_sats + fee +
push_amount` with the push defaulting to 0. -/
theorem c5_fee_and_expected_payment
    (info : CashuLspInfo) (db : Db) (pid : Nat)
    (payload : ChannelQuoteRequest)
    (hmin : info.min_channel_size_sat ≤ payload.channel_size_sats)
    (hmax : payload.channel_size_sats ≤ info.max_channel_size_sat)
    (hmul : payload.channel_size_sats / 1000 * info.fee_ppk < uSize)
    (hsum : payload.channel_size_sats +
        max (payload.channel_size_sats / 1000 * info.fee_ppk) info.min_fee +
        (payload.push_amount.getD 0) < uSize) :
    (post_channel_quote info db pid true payload).1 = HResult.ok () ∧
    ∃ q, ((post_channel_quote info db pid true payload).2).get_quote pid =
        some q ∧
      q.state = QuoteState.Unpaid ∧
      q.expected_payment_sats = payload.channel_size_sats +
        max (payload.channel_size_sats / 1000 * info.fee_ppk) info.min_fee +
        (payload.push_amount.getD 0) := by
  have hrun := channel_quote_success info db pid payload hmin hmax hmul hsum
  rw [hrun]
  exact ⟨rfl, _, get_quote_add_quote_self db _, rfl, rfl⟩

/-- Witness for C5, covering the two worked examples of the spec:
`channel_size_sats = 1_000_000, fee_ppk = 1, min_fee = 500` gives
`expected_payment_sats = 1_001_000` (fee 1000), and
`channel_size_sats = 10_000` gives fee 500, so
`expected_payment_sats = 10_500`. -/
theorem c5_fee_and_expected_payment_witness :
    (∃ q, ((post_channel_quote
        { min_channel_size_sat := 10, max_channel_size_sat := 2000000,
          accepted_mints := [1], min_fee := 500, fee_ppk := 1 }
        [] 7 true
        { channel_size_sats := 1000000, node_pubkey := 2, addr := 3,
          push_amount := none }).2).get_quote 7 = some q ∧
      q.expected_payment_sats = 1001000) ∧
    (∃ q, ((post_channel_quote
        { min_channel_size_sat := 10, max_channel_size_sat := 2000000,
          accepted_mints := [1], min_fee := 500, fee_ppk := 1 }
        [] 7 true
        { channel_size_sats := 10000, node_pubkey := 2, addr := 3,
          push_amount := none }).2).get_quote 7 = some q ∧
      q.expected_payment_sats = 10500) := by
  constructor
  · obtain ⟨-, q, hget, -, hexp⟩ := c5_fee_and_expected_payment
      { min_channel_size_sat := 10, max_channel_size_sat := 2000000,
        accepted_mints := [1], min_fee := 500, fee_ppk := 1 }
      [] 7
      { channel_size_sats := 1000000, node_pubkey := 2, addr := 3,
        push_amount := none }
      (by decide) (by decide) (by decide) (by decide)
    exact ⟨q, hget, hexp.trans (by decide)⟩
  · obtain ⟨-, q, hget, -, hexp⟩ := c5_fee_and_expected_payment
      { min_channel_size_sat := 10, max_channel_size_sat := 2000000,
        accepted_mints := [1], min_fee := 500, fee_ppk := 1 }
      [] 7
      { channel_size_sats := 10000, node_pubkey := 2, addr := 3,
        push_amount := none }
      (by decide) (by decide) (by decide) (by decide)
    exact ⟨q, hget, hexp.trans (by decide)⟩


/-- Claim C6: quote creation fails with the size-out-of-range error exactly
when `channel_size_sats` lies outside the inclusive range
`[min_channel_size_sat, max_channel_size_sat]` (both bounds accepted), and
on that failure no record is persisted (the store is returned unchanged). -/
theorem c6_size_range_guard
    (info : CashuLspInfo) (db : Db) (pid : Nat) (tok : Bool)
    (payload : ChannelQuoteRequest) :
    ((payload.channel_size_sats < info.min_channel_size_sat ∨
        info.max_channel_size_sat < payload.channel_size_sats) →
      post_channel_quote info db pid tok payload =
        (HResult.err (LspError.InvalidChannelSize payload.channel_size_sats
          info.min_channel_size_sat info.max_channel_size_sat), db)) ∧
    (info.min_channel_size_sat ≤ payload.channel_size_sats →
      payload.channel_size_sats ≤ info.max_channel_size_sat →
      ∀ s mn mx, (post_channel_quote info db pid tok payload).1 ≠
        HResult.err (LspError.InvalidChannelSize s mn mx)) :=
  ⟨fun h => channel_quote_out_of_range info db pid tok payload h,
    fun hmin hmax => channel_quote_in_range_not_size_err info db pid tok
      payload hmin hmax⟩

/-- Witness for C6: a 5-sat request below the 10-sat minimum is rejected
with `InvalidChannelSize` and the store stays empty, while a request at
exactly the minimum bound is not rejected for size. -/
theorem c6_size_range_guard_witness :
    post_channel_quote infoW [] 7 true
        { channel_size_sats := 5, node_pubkey := 2, addr := 3,
          push_amount := none } =
      (HResult.err (LspError.InvalidChannelSize 5 10 1000000), []) ∧
    (post_channel_quote infoW [] 7 true
        { channel_size_sats := 10, node_pubkey := 2, addr := 3,
          push_amount := none }).1 ≠
      HResult.err (LspError.InvalidChannelSize 10 10 1000000) :=
  ⟨(c6_size_range_guard infoW [] 7 true
      { channel_size_sats := 5, node_pubkey := 2, addr := 3,
        push_amount := none }).1 (Or.inl (by decide)),
    (c6_size_range_guard infoW [] 7 true
      { channel_size_sats := 10, node_pubkey := 2, addr := 3,
        push_amount := none }).2 (by decide) (by decide) 10 10 1000000⟩

/-- Counterexample to claim C7 as stated: the fee computation detects
overflow but the handler does not return an error to the caller — it
panics (`.expect("Amount overflow")`), aborting the request.  At
`channel_size_sats = 2^63` with `fee_ppk = 10^6` (both in range) the
outcome is the abort, and `isErr` of the outcome is `false`. -/
theorem c7_overflow_is_panic_not_error :
    (post_channel_quote
        { min_channel_size_sat := 0,
          max_channel_size_sat := 18446744073709551615,
          accepted_mints := [1], min_fee := 0, fee_ppk := 1000000 }
        [] 7 true
        { channel_size_sats := 9223372036854775808, node_pubkey := 2,
          addr := 3, push_amount := none }).1 =
      HResult.aborted "Amount overflow" ∧
    ((post_channel_quote
        { min_channel_size_sat := 0,
          max_channel_size_sat := 18446744073709551615,
          accepted_mints := [1], min_fee := 0, fee_ppk := 1000000 }
        [] 7 true
        { channel_size_sats := 9223372036854775808, node_pubkey := 2,
          addr := 3, push_amount := none }).1).isErr = false := by
  constructor
  · decide
  · decide

/-- Claim C7 as amended: the fee and expected-payment computation uses
checked `u64` arithmetic that detects overflow and aborts the request by
panicking — it never wraps and never persists a reduced value (the store
is returned unchanged) — but the overflow is a panic, not an `LspError`
returned to the caller. -/
theorem c7_overflow_detected_no_wrap
    (info : CashuLspInfo) (db : Db) (pid : Nat)
    (payload : ChannelQuoteRequest)
    (hmin : info.min_channel_size_sat ≤ payload.channel_size_sats)
    (hmax : payload.channel_size_sats ≤ info.max_channel_size_sat)
    (hovf : uSize ≤ payload.channel_size_sats / 1000 * info.fee_ppk ∨
      uSize ≤ payload.channel_size_sats +
        max (payload.channel_size_sats / 1000 * info.fee_ppk) info.min_fee +
        (payload.push_amount.getD 0)) :
    (∃ m, post_channel_quote info db pid true payload =
      (HResult.aborted m, db)) ∧
    ((post_channel_quote info db pid true payload).1).isErr = false := by
  obtain ⟨m, hm⟩ := channel_quote_overflow info db pid payload hmin hmax hovf
  refine ⟨⟨m, hm⟩, ?_⟩
  rw [hm]
  rfl

/-- Witness for the amended C7 at the concrete overflowing input. -/
theorem c7_overflow_detected_no_wrap_witness :
    (∃ m, post_channel_quote
        { min_channel_size_sat := 0,
          max_channel_size_sat := 18446744073709551615,
          accepted_mints := [1], min_fee := 0, fee_ppk := 1000000 }
        [] 8 true
        { channel_size_sats := 9223372036854775808, node_pubkey := 2,
          addr := 3, push_amount := none } =
      (HResult.aborted m, [])) ∧
    ((post_channel_quote
        { min_channel_size_sat := 0,
          max_channel_size_sat := 18446744073709551615,
          accepted_mints := [1], min_fee := 0, fee_ppk := 1000000 }
        [] 8 true
        { channel_size_sats := 9223372036854775808, node_pubkey := 2,
          addr := 3, push_amount := none }).1).isErr = false :=
  c7_overflow_detected_no_wrap
    { min_channel_size_sat := 0,
      max_channel_size_sat := 18446744073709551615,
      accepted_mints := [1], min_fee := 0, fee_ppk := 1000000 }
    [] 8
    { channel_size_sats := 9223372036854775808, node_pubkey := 2,
      addr := 3, push_amount := none }
    (by decide) (by decide) (Or.inl (by norm_num [uSize]))


/-- Claim C9: a status query on an existing quote always succeeds; it
resolves the stored internal channel handle against the live channel
list of the node, returning the externally-visible identifier of the
first matching channel, and `none` when no handle is stored or no live channel
matches. -/
theorem c9_status_reconciliation
    (db : Db) (uid : Nat) (q : QuoteInfo) (channels : List ChannelDetails)
    (hq : db.get_quote uid = some q) :
    ∃ resp, get_quote_state db (some uid) channels = HResult.ok resp ∧
      resp.id = q.id ∧ resp.state = q.state ∧
      (q.channel_id = none → resp.channel_id = none) ∧
      (∀ h, q.channel_id = some h →
        (∀ c ∈ channels, c.user_channel_id ≠ h) → resp.channel_id = none) ∧
      (∀ h, q.channel_id = some h →
        (∃ c ∈ channels, c.user_channel_id = h) →
        ∃ c, c ∈ channels ∧ c.user_channel_id = h ∧
          resp.channel_id = some c.channel_id) := by
  have hrun : get_quote_state db (some uid) channels =
      HResult.ok { id := q.id, state := q.state, channel_id :=
        match q.channel_id with
        | none => none
        | some ucid =>
          (List.head? (channels.filter
            (fun c => c.user_channel_id == ucid))).map
            (fun c => c.channel_id) } := by
    unfold get_quote_state
    simp only [hq]
  refine ⟨_, hrun, rfl, rfl, ?_, ?_, ?_⟩
  · intro hnone
    simp [hnone]
  · intro h hcid hno
    have hfil : channels.filter (fun c => c.user_channel_id == h) = [] := by
      apply List.filter_eq_nil_iff.mpr
      intro c hc
      simpa using hno c hc
    simp [hcid, hfil]
  · intro h hcid hex
    rcases hfe : channels.filter (fun c => c.user_channel_id == h) with
      _ | ⟨c0, rest⟩
    · exfalso
      obtain ⟨c, hc, hcu⟩ := hex
      have hmem : c ∈ channels.filter (fun c => c.user_channel_id == h) := by
        simp [List.mem_filter, hc, hcu]
      rw [hfe] at hmem
      simp at hmem
    · have hc0 : c0 ∈ channels.filter (fun c => c.user_channel_id == h) := by
        rw [hfe]
        exact List.mem_cons_self _ _
      have hc0m := List.mem_filter.mp hc0
      refine ⟨c0, hc0m.1, by simpa using hc0m.2, ?_⟩
      simp [hcid, hfe]

/-- Witness for C9: a stored handle 5 matching the single live channel
(internal 5, external 42) resolves to external identifier 42, and a
quote with no stored handle resolves to `none`; both queries succeed. -/
theorem c9_status_reconciliation_witness :
    (∃ resp, get_quote_state [quoteW QuoteState.ChannelOpen (some 5) none]
        (some 7) [{ user_channel_id := 5, channel_id := 42 }] =
        HResult.ok resp ∧ resp.channel_id = some 42 ∧
        resp.state = QuoteState.ChannelOpen) ∧
    (∃ resp, get_quote_state [quoteW QuoteState.Paid none none]
        (some 7) [{ user_channel_id := 5, channel_id := 42 }] =
        HResult.ok resp ∧ resp.channel_id = none) := by
  constructor
  · obtain ⟨resp, hrun, -, hst, -, -, hyes⟩ := c9_status_reconciliation
      [quoteW QuoteState.ChannelOpen (some 5) none] 7
      (quoteW QuoteState.ChannelOpen (some 5) none)
      [{ user_channel_id := 5, channel_id := 42 }] rfl
    obtain ⟨c, hcmem, hcu, hcid⟩ := hyes 5 rfl
      ⟨{ user_channel_id := 5, channel_id := 42 }, by simp, rfl⟩
    have hc : c = { user_channel_id := 5, channel_id := 42 } := by
      simpa using hcmem
    exact ⟨resp, hrun, by rw [hcid, hc], hst⟩
  · obtain ⟨resp, hrun, -, -, hnone, -, -⟩ := c9_status_reconciliation
      [quoteW QuoteState.Paid none none] 7
      (quoteW QuoteState.Paid none none)
      [{ user_channel_id := 5, channel_id := 42 }] rfl
    exact ⟨resp, hrun, hnone rfl⟩

/-- Claim C10: on the successful-validation path of a payment against a
quote with `push_amount_sats = some p`, the push amount forwarded to the
channel-open call is the sats-to-millisats conversion `p * 1000` computed
as an unchecked `u64` multiplication, i.e. `p * 1000 % 2^64`; whenever
`p > 2^64 / 1000` this wrapped value differs from the exact `p * 1000`. -/
theorem c10_push_msat_wrapping
    (info : CashuLspInfo) (db : Db) (payload : PaymentRequestPayload)
    (uid recv amt p : Nat) (q : QuoteInfo) (o : Except String Nat)
    (hm : info.accepted_mints.contains payload.mint = true)
    (hid : payload.id = some (some uid))
    (hq : db.get_quote uid = some q)
    (hst : q.state = QuoteState.Unpaid)
    (hsum : try_sum payload.proofs = some recv)
    (hlt : ¬ q.expected_payment_sats < recv)
    (hp : q.push_amount_sats = some p) :
    (post_receive_payment info db payload true (Except.ok amt) o).2.2 =
      some { node_pubkey := q.node_pubkey, addr := q.addr,
             channel_amount_sats := q.channel_size_sats,
             push_to_counterparty_msat := some (p * 1000 % uSize) } ∧
    (uSize / 1000 < p → p * 1000 % uSize ≠ p * 1000) := by
  constructor
  · cases o with
    | ok cid =>
        rw [payment_success_open_ok info db payload uid recv amt cid q
          hm hid hq hst hsum hlt]
        simp [hp]
    | error e =>
        rw [payment_success_open_err info db payload uid recv amt e q
          hm hid hq hst hsum hlt]
        simp [hp]
  · intro hbig
    have husize : uSize = 18446744073709551616 := by norm_num [uSize]
    rw [husize] at hbig ⊢
    omega

/-- Witness for C10: with `p = 2^64 / 1000 + 1 = 18446744073709552`, the
forwarded push amount is `384` millisats — the reduction of `p * 1000`
modulo `2^64` — rather than the exact product. -/
theorem c10_push_msat_wrapping_witness :
    (post_receive_payment infoW
        [quoteW QuoteState.Unpaid none (some 18446744073709552)]
        (payW [100]) true (Except.ok 100) (Except.ok 99)).2.2 =
      some { node_pubkey := 2, addr := 3, channel_amount_sats := 90,
             push_to_counterparty_msat := some 384 } ∧
    (18446744073709552 : Nat) * 1000 % uSize ≠ 18446744073709552 * 1000 := by
  have h := c10_push_msat_wrapping infoW
    [quoteW QuoteState.Unpaid none (some 18446744073709552)]
    (payW [100]) 7 100 100 18446744073709552
    (quoteW QuoteState.Unpaid none (some 18446744073709552))
    (Except.ok 99) rfl rfl rfl rfl (by decide) (by decide) rfl
  refine ⟨h.1.trans ?_, h.2 (by norm_num [uSize])⟩
  norm_num [quoteW, uSize]


/-- Claim C8: across any sequence of operations of this core (quote
creations with fresh identifiers and payment submissions, with arbitrary
collaborator outcomes), the state of a stored quote only moves forward along
the lifecycle graph `Unpaid → ChannelPending → {ChannelOpen, Paid}`: the
final state is reachable from the initial one through `StateStep` edges,
a quote never returns to `Unpaid` from another state, and no operation
ever writes `ChannelExpired` (a quote created during the sequence starts
from `Unpaid` and likewise never reaches `ChannelExpired`). -/
theorem c8_state_monotonic
    (info : CashuLspInfo) (db : Db) (ops : List Op) (i : Nat)
    (hseq : SeqOK info db ops) :
    (∀ q q', db.get_quote i = some q →
      (applyOps info db ops).get_quote i = some q' →
      Relation.ReflTransGen StateStep q.state q'.state ∧
      (q'.state = QuoteState.Unpaid → q.state = QuoteState.Unpaid) ∧
      (q'.state = QuoteState.ChannelExpired →
        q.state = QuoteState.ChannelExpired)) ∧
    (∀ q', db.get_quote i = none →
      (applyOps info db ops).get_quote i = some q' →
      Relation.ReflTransGen StateStep QuoteState.Unpaid q'.state ∧
      q'.state ≠ QuoteState.ChannelExpired) := by
  have hopt := seq_opt info ops db hseq i
  constructor
  · intro q q' hget hget'
    rw [hget, hget'] at hopt
    have hrtg : Relation.ReflTransGen StateStep q.state q'.state := hopt
    refine ⟨hrtg, ?_, ?_⟩
    · intro hu
      rw [hu] at hrtg
      exact rtg_to_unpaid hrtg
    · intro he
      rw [he] at hrtg
      exact rtg_to_expired hrtg
  · intro q' hget hget'
    rw [hget, hget'] at hopt
    have hrtg : Relation.ReflTransGen StateStep QuoteState.Unpaid q'.state :=
      hopt
    refine ⟨hrtg, ?_⟩
    intro he
    rw [he] at hrtg
    exact QuoteState.noConfusion (rtg_to_expired hrtg)

/-- Witness for C8: starting from an empty store, creating quote 9 and then
paying it (channel opener succeeding with handle 55) yields a quote whose
state `ChannelOpen` is reachable from `Unpaid` along the lifecycle graph
and is not `ChannelExpired`. -/
theorem c8_state_monotonic_witness :
    Relation.ReflTransGen StateStep QuoteState.Unpaid QuoteState.ChannelOpen ∧
    QuoteState.ChannelOpen ≠ QuoteState.ChannelExpired := by
  have h := (c8_state_monotonic infoW []
      [Op.channelQuote 9 true
          { channel_size_sats := 1000, node_pubkey := 2, addr := 3,
            push_amount := none },
        Op.payment { mint := 1, id := some (some 9), proofs := [1001] }
          true (Except.ok 1001) (Except.ok 55)] 9
      ⟨rfl, trivial, trivial⟩).2
    { id := 9, channel_size_sats := 1000, push_amount_sats := none,
      expected_payment_sats := 1001, node_pubkey := 2, addr := 3,
      state := QuoteState.ChannelOpen, channel_id := some 55 }
    rfl (by decide)
  exact h

end CashuLsp
